import Mathlib

/-!
Shallow embedding of the persistence layer of the tgreddit repository
(`src/src/db.rs`): the sqlite-backed tables `post`, `subscription` and `chat`,
the migration engine driven by `rusqlite_migration`, the operation layer
(`record_post`, `is_post_seen`, `subscribe`, `unsubscribe`, ...) and the text
codec for the two enumerated domain types.

Tables are lists of rows in insertion (rowid) order.  Each sqlite statement of
an operation is translated to a pure transformation of the state; statements
that can return rows or fail are translated to `Except`-valued results paired
with the state after the statement (each statement auto-commits, as in the
source, which uses no explicit transaction).
-/

namespace TgredditDb

/-- Timestamps (`chrono::DateTime<Utc>`, persisted as text) are modelled
abstractly as integers; the layer never inspects them. -/
abbrev Timestamp := Int

/-- Modelled from the spec: the polling time-window enum `TopPostsTimePeriod`
lives in a module of this repository that is outside `src/` (only its `ToSql`
and `FromSql` impls are in `db.rs`).  The spec lists the windows
day/week/month/year/all-time, persisted as their canonical lowercase text. -/
inductive TopPostsTimePeriod where
  | day
  | week
  | month
  | year
  | all
deriving DecidableEq, Repr

/-- Modelled from the spec: the canonical lowercase text for a time window
(the `to_string` used by `ToSql for TopPostsTimePeriod`). -/
def TopPostsTimePeriod.toText : TopPostsTimePeriod → String
  | .day => "day"
  | .week => "week"
  | .month => "month"
  | .year => "year"
  | .all => "all"

/-- Modelled from the spec: parsing a persisted time window
(the `from_str` used by `FromSql for TopPostsTimePeriod`); unknown text is
rejected, never defaulted. -/
def TopPostsTimePeriod.fromText (text : String) : Option TopPostsTimePeriod :=
  if text = "day" then some .day
  else if text = "week" then some .week
  else if text = "month" then some .month
  else if text = "year" then some .year
  else if text = "all" then some .all
  else none

/-- Modelled from the spec: the content-type filter enum `PostType` lives in a
module of this repository outside `src/`; the spec lists
image/video/link/self-post, persisted as canonical lowercase text. -/
inductive PostType where
  | image
  | video
  | link
  | selfPost
deriving DecidableEq, Repr

/-- Modelled from the spec: canonical text for a content-type filter
(the `to_string` used by `ToSql for PostType`). -/
def PostType.toText : PostType → String
  | .image => "image"
  | .video => "video"
  | .link => "link"
  | .selfPost => "self"

/-- Modelled from the spec: parsing a persisted content-type filter
(the `from_str` used by `FromSql for PostType`); unknown text is rejected. -/
def PostType.fromText (text : String) : Option PostType :=
  if text = "image" then some .image
  else if text = "video" then some .video
  else if text = "link" then some .link
  else if text = "self" then some .selfPost
  else none

/-- Modelled from the spec: the `Post` record supplied by the feed-fetch
collaborator (`crate::reddit`).  Of its fields the persistence layer reads
only `id`, `subreddit` and `title` (see `record_post` and `is_post_seen`). -/
structure Post where
  id : String
  subreddit : String
  title : String
deriving DecidableEq, Repr

/-- Modelled from the spec: `SubscriptionArgs` (`crate::types`), the caller
supplied parameters of `subscribe` as read by `db.rs`. -/
structure SubscriptionArgs where
  subreddit : String
  limit : Option Int
  time : Option TopPostsTimePeriod
  filter : Option PostType
deriving DecidableEq, Repr

/-- One row of the `post` table (post-migration shape):
`post(post_id, chat_id, subreddit, seen_at NULLABLE, post_title,
PK(post_id, chat_id))`. -/
structure PostRow where
  post_id : String
  chat_id : Int
  subreddit : String
  seen_at : Option Timestamp
  post_title : String
deriving DecidableEq, Repr

/-- One row of the `subscription` table:
`subscription(chat_id FK chat, subreddit, created_at, post_limit NULLABLE,
time NULLABLE, filter NULLABLE, PK(subreddit, chat_id))`. -/
structure SubscriptionRow where
  chat_id : Int
  subreddit : String
  created_at : Timestamp
  post_limit : Option Int
  time : Option TopPostsTimePeriod
  filter : Option PostType
deriving DecidableEq, Repr

/-- One row of the `chat` table: `chat(chat_id PK, repost_channel_id NULLABLE)`. -/
structure ChatRow where
  chat_id : Int
  repost_channel_id : Option Int
deriving DecidableEq, Repr

/-- The whole store after migration: the three tables, each a list of rows in
rowid (insertion) order. -/
structure DbState where
  posts : List PostRow
  subscriptions : List SubscriptionRow
  chats : List ChatRow
deriving DecidableEq, Repr

/-- The store produced by migrating a fresh (empty) database. -/
def initialState : DbState := ⟨[], [], []⟩

/-- Error classes surfaced by the layer (the spec taxonomy in section 7; in the
source these are rusqlite/anyhow errors).  `notFound` is
`QueryReturnedNoRows`, `constraintViolation` a primary-key violation,
`storageIO` an engine-level failure, `dataCorruption` a codec decode failure. -/
inductive DbError where
  | storageIO
  | constraintViolation
  | notFound
  | dataCorruption
deriving DecidableEq, Repr

/-- ASCII lowercasing, as used by sqlite's `LIKE` (case-insensitive for the
ASCII range only). -/
def asciiLower (c : Char) : Char :=
  if 'A' ≤ c ∧ c ≤ 'Z' then Char.ofNat (c.toNat + 32) else c

/-- Fuel-indexed core of sqlite `LIKE` matching over character lists:
`%` matches any sequence, `_` any single character, other characters match
ASCII-case-insensitively.  Every recursive call shortens pattern+text, so
`fuel = pattern.length + text.length + 1` always suffices. -/
def likeFuel : Nat → List Char → List Char → Bool
  | 0, _, _ => false
  | _ + 1, [], [] => true
  | _ + 1, [], _ :: _ => false
  | n + 1, p :: ps, [] => if p = '%' then likeFuel n ps [] else false
  | n + 1, p :: ps, t :: ts =>
      if p = '%' then likeFuel n ps (t :: ts) || likeFuel n (p :: ps) ts
      else (if p = '_' then true else asciiLower p == asciiLower t) && likeFuel n ps ts

/-- sqlite `text LIKE pattern` (no ESCAPE clause, as in `unsubscribe`). -/
def sqliteLike (pat text : String) : Bool :=
  likeFuel (pat.length + text.length + 1) pat.data text.data

/-- Whether a `post` row has the primary key `(post_id, chat_id)`. -/
def postKeyIs (pid : String) (cid : Int) (r : PostRow) : Bool :=
  r.post_id == pid && r.chat_id == cid

/-- Statement 1 of `record_post`: `insert or ignore into post ...` — the row is
appended only when no row with its primary key exists. -/
def insertOrIgnorePost (row : PostRow) (posts : List PostRow) : List PostRow :=
  if posts.any (postKeyIs row.post_id row.chat_id) then posts else posts ++ [row]

/-- Statement 2 of `record_post`: `update post set seen_at = :seen_at where
post_id = :post_id and chat_id = :chat_id and seen_at is null`. -/
def promoteSeenAt (pid : String) (cid : Int) (sa : Option Timestamp)
    (posts : List PostRow) : List PostRow :=
  posts.map fun r =>
    if postKeyIs pid cid r && r.seen_at.isNone then { r with seen_at := sa } else r

/-- `Database::record_post(chat_id, post, seen_at)`: insert-or-ignore the row
(storing the given `seen_at` and title on first insert), then promote a null
`seen_at` to the given value.  Neither statement can fail on constraints, so
the operation is total. -/
def record_post (chat_id : Int) (post : Post) (seen_at : Option Timestamp)
    (s : DbState) : DbState :=
  let inserted :=
    insertOrIgnorePost ⟨post.id, chat_id, post.subreddit, seen_at, post.title⟩ s.posts
  { s with posts := promoteSeenAt post.id chat_id seen_at inserted }

/-- `Database::record_post_seen_with_current_time`: `record_post` with
`seen_at = now` (the wall-clock time is passed explicitly). -/
def record_post_seen_with_current_time (chat_id : Int) (post : Post)
    (now : Timestamp) (s : DbState) : DbState :=
  record_post chat_id post (some now) s

/-- `Database::is_post_seen`: whether a `post` row with key
`(post.id, chat_id)` and non-null `seen_at` exists. -/
def is_post_seen (chat_id : Int) (post : Post) (s : DbState) : Bool :=
  s.posts.any fun r => postKeyIs post.id chat_id r && r.seen_at.isSome

/-- `Database::existing_posts_for_subreddit`: whether any `post` row for
`(chat_id, subreddit)` exists, seen or not. -/
def existing_posts_for_subreddit (chat_id : Int) (subreddit : String)
    (s : DbState) : Bool :=
  s.posts.any fun r => r.chat_id == chat_id && r.subreddit == subreddit

/-- `Database::get_post_title`: the stored title for `(post_id, chat_id)`,
`notFound` when no row exists. -/
def get_post_title (chat_id : Int) (post_id : String) (s : DbState) :
    Except DbError String :=
  match s.posts.find? (postKeyIs post_id chat_id) with
  | some r => .ok r.post_title
  | none => .error .notFound

/-- `Database::ensure_chat_exists`: insert a `chat` row only when absent
(select exists, then a conditional insert). -/
def ensure_chat_exists (chat_id : Int) (s : DbState) : DbState :=
  if s.chats.any (fun c => c.chat_id == chat_id) then s
  else { s with chats := s.chats ++ [⟨chat_id, none⟩] }

/-- Whether a `subscription` row has the primary key `(subreddit, chat_id)`. -/
def subKeyIs (subreddit : String) (cid : Int) (r : SubscriptionRow) : Bool :=
  r.subreddit == subreddit && r.chat_id == cid

/-- `Database::subscribe(chat_id, args)`: `ensure_chat_exists`, then a plain
`insert into subscription`, which hits the primary-key constraint when
`(subreddit, chat_id)` already exists.  The chat insertion has already
auto-committed when the second statement fails, so the state after a
constraint failure keeps the new chat row. -/
def subscribe (chat_id : Int) (args : SubscriptionArgs) (now : Timestamp)
    (s : DbState) : Except DbError Unit × DbState :=
  let s1 := ensure_chat_exists chat_id s
  if s1.subscriptions.any (subKeyIs args.subreddit chat_id) then
    (.error .constraintViolation, s1)
  else
    (.ok (), { s1 with subscriptions :=
      s1.subscriptions ++ [⟨chat_id, args.subreddit, now, args.limit, args.time, args.filter⟩] })

/-- Whether a `subscription` row is hit by the `delete ... where chat_id =
:chat_id and subreddit LIKE :subreddit` of `unsubscribe`. -/
def unsubHits (chat_id : Int) (pat : String) (r : SubscriptionRow) : Bool :=
  r.chat_id == chat_id && sqliteLike pat r.subreddit

/-- `Database::unsubscribe(chat_id, subreddit)`.  Statement 1 is
`delete from subscription where chat_id = :chat_id and subreddit LIKE
:subreddit returning subreddit`, driven through `query_row`: sqlite runs the
whole delete on the first step, so every LIKE-matching row of the chat is
deleted, and `query_row` reads the first returned row (rowid order) and
ignores the rest; with no matching row it fails with `QueryReturnedNoRows`
(`notFound`) and the store is unchanged.  Statement 2 deletes the `post` rows
whose subreddit equals (exactly) the returned subreddit. -/
def unsubscribe (chat_id : Int) (pat : String) (s : DbState) :
    Except DbError String × DbState :=
  match (s.subscriptions.filter (unsubHits chat_id pat)).head? with
  | none => (.error .notFound, s)
  | some row =>
    let subs2 := s.subscriptions.filter (fun r => !(unsubHits chat_id pat r))
    let posts2 := s.posts.filter (fun p => !(p.chat_id == chat_id && p.subreddit == row.subreddit))
    (.ok row.subreddit, { s with subscriptions := subs2, posts := posts2 })

/-- `unsubscribe` under a storage-fault environment: `fault1`/`fault2` say
whether the engine fails the first/second sql statement with a storage-level
error.  Each statement auto-commits on its own (the source opens no
transaction), so a fault in the second statement leaves the first statement's
deletion committed.  `unsubscribeFaulty false false` is exactly
`unsubscribe`. -/
def unsubscribeFaulty (fault1 fault2 : Bool) (chat_id : Int) (pat : String)
    (s : DbState) : Except DbError String × DbState :=
  if fault1 then (.error DbError.storageIO, s)
  else
    match (s.subscriptions.filter (unsubHits chat_id pat)).head? with
    | none => (.error .notFound, s)
    | some row =>
      let subs2 := s.subscriptions.filter (fun r => !(unsubHits chat_id pat r))
      let s1 := { s with subscriptions := subs2 }
      if fault2 then (.error DbError.storageIO, s1)
      else
        let posts2 := s1.posts.filter (fun p => !(p.chat_id == chat_id && p.subreddit == row.subreddit))
        (.ok row.subreddit, { s1 with posts := posts2 })

/-- `Database::get_subscriptions_for_chat`: the chat's subscription rows, in
table order; an empty list (never an error) when there are none. -/
def get_subscriptions_for_chat (chat_id : Int) (s : DbState) :
    List SubscriptionRow :=
  s.subscriptions.filter (fun r => r.chat_id == chat_id)

/-- `Database::get_all_subscriptions`: every subscription row. -/
def get_all_subscriptions (s : DbState) : List SubscriptionRow :=
  s.subscriptions

/-- `Database::set_repost_channel`: `ensure_chat_exists`, then update the
single nullable column of that chat row. -/
def set_repost_channel (chat_id : Int) (repost_channel_id : Int) (s : DbState) :
    DbState :=
  let s1 := ensure_chat_exists chat_id s
  { s1 with chats := s1.chats.map fun c =>
      if c.chat_id == chat_id then { c with repost_channel_id := some repost_channel_id }
      else c }

/-- `Database::get_repost_channel`: the optional repost channel, `none` when
the chat row is absent or the column is null (`query_row(...).optional()`). -/
def get_repost_channel (chat_id : Int) (s : DbState) : Option Int :=
  match s.chats.find? (fun c => c.chat_id == chat_id) with
  | some c => c.repost_channel_id
  | none => none

/-- One call of the operation layer, for quantifying over reachable states.
Error results are discarded: `apply` yields the state after the call whether
or not the call succeeded. -/
inductive Op where
  | recordPost (chat_id : Int) (post : Post) (seen_at : Option Timestamp)
  | recordPostSeenNow (chat_id : Int) (post : Post) (now : Timestamp)
  | subscribeOp (chat_id : Int) (args : SubscriptionArgs) (now : Timestamp)
  | unsubscribeOp (chat_id : Int) (pat : String)
  | ensureChat (chat_id : Int)
  | setRepostChannel (chat_id : Int) (repost_channel_id : Int)
deriving DecidableEq, Repr

/-- The state after one operation-layer call. -/
def Op.apply (op : Op) (s : DbState) : DbState :=
  match op with
  | .recordPost cid post sa => record_post cid post sa s
  | .recordPostSeenNow cid post now => record_post_seen_with_current_time cid post now s
  | .subscribeOp cid args now => (subscribe cid args now s).2
  | .unsubscribeOp cid pat => (unsubscribe cid pat s).2
  | .ensureChat cid => ensure_chat_exists cid s
  | .setRepostChannel cid rc => set_repost_channel cid rc s

/-- The state after a sequence of operation-layer calls. -/
def runOps : List Op → DbState → DbState
  | [], s => s
  | op :: ops, s => runOps ops (op.apply s)

/-- The migration list of `db.rs` (`MIGRATIONS`), verbatim: twelve forward-only
sql steps. -/
def MIGRATIONS : List String := [
  "create table post(post_id text not null, chat_id integer not null, subreddit text not null, seen_at text not null, primary key (post_id, chat_id)) strict;",
  "create table subscription(chat_id integer not null, subreddit text not null, created_at text not null, post_limit integer, time text, filter text, primary key (subreddit, chat_id)) strict;",
  "create table chat(chat_id integer primary key, repost_channel_id integer) strict;",
  "insert or ignore into chat (chat_id) select chat_id from subscription;",
  "create table subscription_new(chat_id integer not null, subreddit text not null, created_at text not null, post_limit integer, time text, filter text, primary key (subreddit, chat_id), foreign key (chat_id) references chat(chat_id));",
  "insert into subscription_new select * from subscription;",
  "drop table subscription;",
  "alter table subscription_new rename to subscription;",
  "create table post_new(post_id text not null, chat_id integer not null, subreddit text not null, seen_at text, post_title text not null, primary key (post_id, chat_id)) strict;",
  "insert into post_new (post_id, chat_id, subreddit, seen_at, post_title) select post_id, chat_id, subreddit, seen_at, 'Unknown' as post_title from post;",
  "drop table post;",
  "alter table post_new rename to post;"]

/-- The migration engine's persistent state: the `user_version` pragma, in
which `rusqlite_migration` records how many of the ordered steps have been
applied. -/
structure MigDb where
  user_version : Nat
deriving DecidableEq, Repr

/-- Migration failure classes of `rusqlite_migration`: a step's sql failing
(aborting the whole invocation), or a store whose recorded version is beyond
the defined list. -/
inductive MigError where
  | stepFailed
  | versionTooNew
deriving DecidableEq, Repr

/-- `Database::migrate`: `Migrations::new(MIGRATIONS.map(M::up)).to_latest`.
Reads `user_version`; when it already equals the number of defined steps it
applies nothing and succeeds; when smaller it applies exactly the missing
steps, in order, and records the new version; when larger it fails.  Returns
the new engine state together with the indices of the steps applied by this
invocation. -/
def migrate (db : MigDb) : Except MigError (MigDb × List Nat) :=
  let target := MIGRATIONS.length
  if db.user_version = target then .ok (db, [])
  else if db.user_version < target then
    .ok (⟨target⟩, (List.range (target - db.user_version)).map (· + db.user_version))
  else .error .versionTooNew

/-- The engine state after one `migrate` call (unchanged when the call
fails). -/
def migrateState (db : MigDb) : MigDb :=
  match migrate db with
  | .ok (db2, _) => db2
  | .error _ => db

/-- The step indices applied by one `migrate` call (none when it fails: a
failing invocation applies nothing). -/
def migrateApplied (db : MigDb) : List Nat :=
  match migrate db with
  | .ok (_, l) => l
  | .error _ => []

/-- All step indices applied over a sequence of `n` successive `migrate`
calls. -/
def migrateTrace (db : MigDb) : Nat → List Nat
  | 0 => []
  | n + 1 => migrateApplied db ++ migrateTrace (migrateState db) n

/-- Whether a `chat` row with the given id exists. -/
def chatHas (cid : Int) (s : DbState) : Bool :=
  s.chats.any fun c => c.chat_id == cid

/-- The foreign-key invariant of the schema: every `subscription` row's
`chat_id` references an existing `chat` row. -/
def chatFK (s : DbState) : Bool :=
  s.subscriptions.all fun sub => chatHas sub.chat_id s

/-- The decode half of `FromSql for TopPostsTimePeriod` in `db.rs`: parse the
persisted text, surfacing unknown text as a decode failure
(`FromSqlError::Other`, the DataCorruption class), never as a default. -/
def TopPostsTimePeriod.columnResult (text : String) :
    Except DbError TopPostsTimePeriod :=
  match TopPostsTimePeriod.fromText text with
  | some v => .ok v
  | none => .error .dataCorruption

/-- The decode half of `FromSql for PostType` in `db.rs`. -/
def PostType.columnResult (text : String) : Except DbError PostType :=
  match PostType.fromText text with
  | some v => .ok v
  | none => .error .dataCorruption

/-- A reachable store in which chat 1 holds the two subscriptions "ab" and
"ac" (in that insertion order): the result of two subscribe calls on the
migrated empty store. -/
def twoSubsState : DbState :=
  ⟨[], [⟨1, "ab", 0, none, none, none⟩, ⟨1, "ac", 0, none, none, none⟩], [⟨1, none⟩]⟩

/-- `twoSubsState` with one seen `post` row in each of the two subreddits. -/
def twoSubsPostsState : DbState :=
  ⟨[⟨"p1", 1, "ab", some 3, "t"⟩, ⟨"p2", 1, "ac", some 4, "u"⟩],
    [⟨1, "ab", 0, none, none, none⟩, ⟨1, "ac", 0, none, none, none⟩], [⟨1, none⟩]⟩

/-- A reachable store in which chat 1 subscribes to "test" and has one seen
`post` row in it. -/
def subWithPostState : DbState :=
  ⟨[⟨"p1", 1, "test", some 5, "t"⟩], [⟨1, "test", 0, none, none, none⟩], [⟨1, none⟩]⟩

/-- The post used by the concrete unsubscribe scenarios: a post of subreddit
"test". -/
def testPost : Post := ⟨"p1", "test", "t"⟩

/-- A reachable store holding, for chat 1, the subscription "TEST" and then
the subscription "test" (two distinct primary keys that LIKE-match each
other case-insensitively), built by two subscribe calls. -/
def mixedCaseState : DbState :=
  (subscribe 1 ⟨"test", none, none, none⟩ 0
    (subscribe 1 ⟨"TEST", none, none, none⟩ 0 initialState).2).2

/-! Helper lemmas about the embedded operations. -/

theorem map_noop {α : Type} (f : α → α) (l : List α) (h : ∀ a ∈ l, f a = a) :
    l.map f = l := by
  induction l with
  | nil => rfl
  | cons x xs ih =>
    simp only [List.map_cons, List.cons.injEq]
    exact ⟨h x (List.mem_cons_self x xs), ih fun a ha => h a (List.mem_cons_of_mem x ha)⟩

theorem postKeyIs_iff (pid : String) (cid : Int) (r : PostRow) :
    postKeyIs pid cid r = true ↔ (r.post_id = pid ∧ r.chat_id = cid) := by
  simp [postKeyIs]

/-- When no row with the key is present, `record_post` appends one row holding
exactly the given `seen_at` (the insert stores it and the promotion either
rewrites null to null or does not fire). -/
theorem record_post_posts_absent (s : DbState) (cid : Int) (post : Post)
    (sa : Option Timestamp) (h : ∀ r ∈ s.posts, postKeyIs post.id cid r = false) :
    (record_post cid post sa s).posts
      = s.posts ++ [⟨post.id, cid, post.subreddit, sa, post.title⟩] := by
  have hany : s.posts.any (postKeyIs post.id cid) = false := by
    rw [← Bool.not_eq_true, List.any_eq_true]
    rintro ⟨r, hr, hkey⟩
    rw [h r hr] at hkey
    exact Bool.false_ne_true hkey
  show promoteSeenAt post.id cid sa (insertOrIgnorePost _ s.posts) = _
  rw [insertOrIgnorePost]
  simp only [hany, if_neg Bool.false_ne_true]
  rw [promoteSeenAt, List.map_append,
    map_noop _ s.posts (fun r hr => by rw [h r hr]; rfl)]
  cases sa <;> simp [postKeyIs]

/-- When the table is `l ++ [row]` with `row` the unique key-holder and its
`seen_at` null, `record_post` leaves `l` alone and promotes `row`'s `seen_at`
to the given value (the insert is ignored, the conditional update fires). -/
theorem record_post_posts_promote (s : DbState) (cid : Int) (post : Post)
    (sa : Option Timestamp) (l : List PostRow) (row : PostRow)
    (hposts : s.posts = l ++ [row])
    (hl : ∀ r ∈ l, postKeyIs post.id cid r = false)
    (hrow : postKeyIs post.id cid row = true) (hnull : row.seen_at = none) :
    (record_post cid post sa s).posts = l ++ [{ row with seen_at := sa }] := by
  have hany : s.posts.any (postKeyIs post.id cid) = true := by
    rw [List.any_eq_true]
    exact ⟨row, by rw [hposts]; exact List.mem_append_right l (List.mem_singleton_self row), hrow⟩
  show promoteSeenAt post.id cid sa (insertOrIgnorePost _ s.posts) = _
  rw [insertOrIgnorePost]
  simp only [hany, if_true]
  rw [hposts, promoteSeenAt, List.map_append,
    map_noop _ l (fun r hr => by rw [hl r hr]; rfl)]
  simp [hrow, hnull]

/-- `is_post_seen` over a table `l ++ [row]` in which no row of `l` holds the
key reduces to looking at `row`. -/
theorem is_post_seen_append (cid : Int) (post : Post) (l : List PostRow)
    (row : PostRow) (h : ∀ r ∈ l, postKeyIs post.id cid r = false) :
    is_post_seen cid post ⟨l ++ [row], [], []⟩
      = (postKeyIs post.id cid row && row.seen_at.isSome) := by
  show (l ++ [row]).any _ = _
  rw [List.any_append]
  have : l.any (fun r => postKeyIs post.id cid r && r.seen_at.isSome) = false := by
    rw [← Bool.not_eq_true, List.any_eq_true]
    rintro ⟨r, hr, hkey⟩
    rw [h r hr] at hkey
    simp at hkey
  rw [this]
  simp [is_post_seen]

/-- `is_post_seen` reads only the `posts` table. -/
theorem is_post_seen_posts (cid : Int) (post : Post) (s : DbState) :
    is_post_seen cid post s = is_post_seen cid post ⟨s.posts, [], []⟩ := rfl

/-- C1: for a `(post_id, chat_id)` with no existing row, one `record_post`
call makes `is_post_seen` report exactly whether the `seen_at` argument was
non-null; and a second call with non-null `seen_at` after a first call with
null `seen_at` leaves exactly one row for the key and makes `is_post_seen`
true.  `record_post` is total in the embedding: neither of its statements can
fail, so no error is possible. -/
theorem record_post_then_seen_spec (s : DbState) (cid : Int) (post : Post)
    (t : Timestamp) (h : ∀ r ∈ s.posts, postKeyIs post.id cid r = false) :
    is_post_seen cid post (record_post cid post none s) = false ∧
    is_post_seen cid post (record_post cid post (some t) s) = true ∧
    ((record_post cid post (some t) (record_post cid post none s)).posts.filter
        (postKeyIs post.id cid)).length = 1 ∧
    is_post_seen cid post (record_post cid post (some t) (record_post cid post none s)) = true := by
  have h1 := record_post_posts_absent s cid post none h
  have h2 := record_post_posts_absent s cid post (some t) h
  have hkey : postKeyIs post.id cid ⟨post.id, cid, post.subreddit, none, post.title⟩ = true := by
    simp [postKeyIs]
  have h3 := record_post_posts_promote (record_post cid post none s) cid post (some t)
    s.posts ⟨post.id, cid, post.subreddit, none, post.title⟩ h1 h hkey rfl
  refine ⟨?_, ?_, ?_, ?_⟩
  · rw [is_post_seen_posts, h1, is_post_seen_append cid post s.posts _ h]
    simp
  · rw [is_post_seen_posts, h2, is_post_seen_append cid post s.posts _ h]
    simp [postKeyIs]
  · rw [h3, List.filter_append]
    have : s.posts.filter (postKeyIs post.id cid) = [] := by
      rw [List.filter_eq_nil_iff]
      intro r hr
      rw [h r hr]
      exact Bool.false_ne_true
    rw [this]
    simp [postKeyIs]
  · rw [is_post_seen_posts, h3, is_post_seen_append cid post s.posts _ h]
    simp [postKeyIs]

/-- Witness for `record_post_then_seen_spec` at a concrete input. -/
theorem record_post_then_seen_spec_witness :
    is_post_seen 1 ⟨"p1", "test", "t"⟩ (record_post 1 ⟨"p1", "test", "t"⟩ none initialState) = false ∧
    is_post_seen 1 ⟨"p1", "test", "t"⟩ (record_post 1 ⟨"p1", "test", "t"⟩ (some 5) initialState) = true ∧
    ((record_post 1 ⟨"p1", "test", "t"⟩ (some 5)
        (record_post 1 ⟨"p1", "test", "t"⟩ none initialState)).posts.filter
        (postKeyIs "p1" 1)).length = 1 ∧
    is_post_seen 1 ⟨"p1", "test", "t"⟩ (record_post 1 ⟨"p1", "test", "t"⟩ (some 5)
        (record_post 1 ⟨"p1", "test", "t"⟩ none initialState)) = true :=
  record_post_then_seen_spec initialState 1 ⟨"p1", "test", "t"⟩ 5
    (by intro r hr; simp [initialState] at hr)

theorem ensure_chat_exists_posts (cid : Int) (s : DbState) :
    (ensure_chat_exists cid s).posts = s.posts := by
  rw [ensure_chat_exists]
  split <;> rfl

theorem ensure_chat_exists_subscriptions (cid : Int) (s : DbState) :
    (ensure_chat_exists cid s).subscriptions = s.subscriptions := by
  rw [ensure_chat_exists]
  split <;> rfl

theorem subscribe_posts (cid : Int) (args : SubscriptionArgs) (now : Timestamp)
    (s : DbState) : (subscribe cid args now s).2.posts = s.posts := by
  rw [subscribe]
  split <;> simp [ensure_chat_exists_posts]

theorem set_repost_channel_posts (cid rc : Int) (s : DbState) :
    (set_repost_channel cid rc s).posts = s.posts := by
  rw [set_repost_channel]
  simp [ensure_chat_exists_posts]

theorem set_repost_channel_subscriptions (cid rc : Int) (s : DbState) :
    (set_repost_channel cid rc s).subscriptions = s.subscriptions := by
  rw [set_repost_channel]
  simp [ensure_chat_exists_subscriptions]

/-- A row whose `seen_at` is already non-null passes through `record_post`
untouched: the insert is ignored for it and the conditional update does not
fire on it. -/
theorem record_post_preserves_seen_row (cid2 : Int) (post2 : Post)
    (sa : Option Timestamp) (s : DbState) (r : PostRow) (hmem : r ∈ s.posts)
    (hseen : r.seen_at.isSome = true) :
    r ∈ (record_post cid2 post2 sa s).posts := by
  have hmem2 : r ∈ insertOrIgnorePost
      ⟨post2.id, cid2, post2.subreddit, sa, post2.title⟩ s.posts := by
    rw [insertOrIgnorePost]
    split
    · exact hmem
    · exact List.mem_append_left _ hmem
  show r ∈ promoteSeenAt post2.id cid2 sa _
  rw [promoteSeenAt]
  have hfix : (if (postKeyIs post2.id cid2 r && r.seen_at.isNone) = true
      then { r with seen_at := sa } else r) = r := by
    have : r.seen_at.isNone = false := by
      cases hsa : r.seen_at
      · rw [hsa] at hseen; simp at hseen
      · rfl
    rw [this]
    simp
  exact List.mem_map.mpr ⟨r, hmem2, hfix⟩

/-- C2: a `post` row whose stored `seen_at` is non-null survives every
operation-layer call with all its fields (in particular `seen_at`) intact,
except possibly an `unsubscribe`, which is the only operation that deletes
`post` rows. -/
theorem seen_row_monotone (op : Op) (s : DbState) (pid : String) (cid : Int)
    (t : Timestamp) (r : PostRow) (hmem : r ∈ s.posts)
    (_hkey : postKeyIs pid cid r = true) (hseen : r.seen_at = some t) :
    r ∈ (op.apply s).posts ∨ ∃ c pat, op = Op.unsubscribeOp c pat := by
  have hsome : r.seen_at.isSome = true := by rw [hseen]; rfl
  cases op with
  | recordPost cid2 post2 sa =>
    exact Or.inl (record_post_preserves_seen_row cid2 post2 sa s r hmem hsome)
  | recordPostSeenNow cid2 post2 now =>
    exact Or.inl (record_post_preserves_seen_row cid2 post2 (some now) s r hmem hsome)
  | subscribeOp cid2 args now =>
    refine Or.inl ?_
    show r ∈ (subscribe cid2 args now s).2.posts
    rw [subscribe_posts]
    exact hmem
  | unsubscribeOp cid2 pat => exact Or.inr ⟨cid2, pat, rfl⟩
  | ensureChat cid2 =>
    refine Or.inl ?_
    show r ∈ (ensure_chat_exists cid2 s).posts
    rw [ensure_chat_exists_posts]
    exact hmem
  | setRepostChannel cid2 rc =>
    refine Or.inl ?_
    show r ∈ (set_repost_channel cid2 rc s).posts
    rw [set_repost_channel_posts]
    exact hmem

/-- Witness for `seen_row_monotone` at a concrete input: a seen row survives a
null-`seen_at` `record_post` for its own key. -/
theorem seen_row_monotone_witness :
    (⟨"p1", 1, "test", some 5, "t"⟩ : PostRow) ∈
        ((Op.recordPost 1 ⟨"p1", "test", "t"⟩ none).apply
          ⟨[⟨"p1", 1, "test", some 5, "t"⟩], [], []⟩).posts ∨
      ∃ c pat, Op.recordPost 1 (⟨"p1", "test", "t"⟩ : Post) none = Op.unsubscribeOp c pat :=
  seen_row_monotone (Op.recordPost 1 ⟨"p1", "test", "t"⟩ none)
    ⟨[⟨"p1", 1, "test", some 5, "t"⟩], [], []⟩ "p1" 1 5 ⟨"p1", 1, "test", some 5, "t"⟩
    (List.mem_singleton_self _) (by decide) rfl

theorem migrate_at_latest (db : MigDb) (h : db.user_version = MIGRATIONS.length) :
    migrate db = .ok (db, []) := by
  rw [migrate]
  simp [h]

theorem migrateTrace_at_latest (db : MigDb)
    (h : db.user_version = MIGRATIONS.length) :
    ∀ n, migrateTrace db n = [] := by
  intro n
  induction n with
  | zero => rfl
  | succ n ih =>
    rw [migrateTrace]
    have h1 : migrateApplied db = [] := by
      rw [migrateApplied, migrate_at_latest db h]
    have h2 : migrateState db = db := by
      rw [migrateState, migrate_at_latest db h]
    rw [h1, h2, ih]
    rfl

theorem migrateTrace_too_new (db : MigDb)
    (h : MIGRATIONS.length < db.user_version) :
    ∀ n, migrateTrace db n = [] := by
  have herr : migrate db = .error .versionTooNew := by
    rw [migrate]
    have h1 : ¬(db.user_version = MIGRATIONS.length) := by omega
    have h2 : ¬(db.user_version < MIGRATIONS.length) := by omega
    simp [h1, h2]
  intro n
  induction n with
  | zero => rfl
  | succ n ih =>
    rw [migrateTrace]
    have h1 : migrateApplied db = [] := by rw [migrateApplied, herr]
    have h2 : migrateState db = db := by rw [migrateState, herr]
    rw [h1, h2, ih]
    rfl

/-- C3: migrating a store already at the latest schema version applies no
step and succeeds, and over any sequence of `migrate` calls no step index is
ever applied twice (the applied-steps trace has no duplicates). -/
theorem migrate_idempotent :
    (∀ db : MigDb, db.user_version = MIGRATIONS.length → migrate db = .ok (db, [])) ∧
    (∀ (db : MigDb) (n : Nat), (migrateTrace db n).Nodup) := by
  refine ⟨migrate_at_latest, ?_⟩
  intro db n
  rcases Nat.lt_trichotomy db.user_version MIGRATIONS.length with hlt | heq | hgt
  · cases n with
    | zero => exact List.nodup_nil
    | succ n =>
      have hne : ¬(db.user_version = MIGRATIONS.length) := by omega
      have happ : migrateApplied db
          = (List.range (MIGRATIONS.length - db.user_version)).map (· + db.user_version) := by
        rw [migrateApplied, migrate]
        simp [hne, hlt]
      have hstate : migrateState db = ⟨MIGRATIONS.length⟩ := by
        rw [migrateState, migrate]
        simp [hne, hlt]
      rw [migrateTrace, happ, hstate,
        migrateTrace_at_latest ⟨MIGRATIONS.length⟩ rfl n, List.append_nil]
      exact (List.nodup_range _).map fun a b hab => by omega
  · rw [migrateTrace_at_latest db heq n]
    exact List.nodup_nil
  · rw [migrateTrace_too_new db hgt n]
    exact List.nodup_nil

/-- Witness for `migrate_idempotent`: the fully migrated store (version 12)
migrates to itself applying nothing, and two calls from an empty store apply
no step twice. -/
theorem migrate_idempotent_witness :
    migrate ⟨12⟩ = .ok (⟨12⟩, []) ∧ (migrateTrace ⟨0⟩ 2).Nodup :=
  ⟨migrate_idempotent.1 ⟨12⟩ rfl, migrate_idempotent.2 ⟨0⟩ 2⟩

theorem any_congr {α : Type} (l : List α) (p q : α → Bool)
    (h : ∀ a ∈ l, p a = q a) : l.any p = l.any q := by
  induction l with
  | nil => rfl
  | cons x xs ih => simp_all

theorem chatHas_ensure_mono (x cid : Int) (s : DbState)
    (h : chatHas x s = true) : chatHas x (ensure_chat_exists cid s) = true := by
  rw [chatHas] at h
  rw [chatHas, ensure_chat_exists]
  split
  · exact h
  · show (s.chats ++ [(⟨cid, none⟩ : ChatRow)]).any _ = true
    rw [List.any_append, h]
    rfl

theorem chatHas_ensure_self (cid : Int) (s : DbState) :
    chatHas cid (ensure_chat_exists cid s) = true := by
  rw [chatHas, ensure_chat_exists]
  split
  · assumption
  · show (s.chats ++ [(⟨cid, none⟩ : ChatRow)]).any _ = true
    simp [List.any_append]

theorem chatFK_ensure (cid : Int) (s : DbState) (h : chatFK s = true) :
    chatFK (ensure_chat_exists cid s) = true := by
  rw [chatFK, List.all_eq_true] at h ⊢
  intro sub hsub
  have hsub2 : sub ∈ s.subscriptions := by
    rw [ensure_chat_exists_subscriptions] at hsub
    exact hsub
  exact chatHas_ensure_mono sub.chat_id cid s (h sub hsub2)

theorem chatHas_map_setrc (x cid rc : Int) (l : List ChatRow)
    (h : l.any (fun c => c.chat_id == x) = true) :
    (l.map fun c => if c.chat_id == cid
        then { c with repost_channel_id := some rc } else c).any
      (fun c => c.chat_id == x) = true := by
  induction l with
  | nil => simp at h
  | cons c l ih =>
    rw [List.any_cons] at h
    rw [List.map_cons, List.any_cons]
    rw [Bool.or_eq_true] at h
    rw [Bool.or_eq_true]
    rcases h with hc | hl
    · left
      show ((if (c.chat_id == cid) = true
          then ({ c with repost_channel_id := some rc } : ChatRow) else c).chat_id == x) = true
      split
      · exact hc
      · exact hc
    · exact Or.inr (ih hl)

/-- Every single operation-layer call preserves the foreign-key invariant. -/
theorem chatFK_apply (op : Op) (s : DbState) (h : chatFK s = true) :
    chatFK (op.apply s) = true := by
  cases op with
  | recordPost cid post sa => exact h
  | recordPostSeenNow cid post now => exact h
  | subscribeOp cid args now =>
    show chatFK (subscribe cid args now s).2 = true
    simp only [subscribe]
    split
    · exact chatFK_ensure cid s h
    · rw [chatFK, List.all_eq_true]
      intro sub hsub
      have hsub2 : sub ∈ s.subscriptions ++ [⟨cid, args.subreddit, now, args.limit, args.time, args.filter⟩] := by
        have := hsub
        rw [ensure_chat_exists_subscriptions] at this
        exact this
      rw [List.mem_append] at hsub2
      show chatHas sub.chat_id (ensure_chat_exists cid s) = true
      cases hsub2 with
      | inl hmem =>
        exact chatHas_ensure_mono sub.chat_id cid s ((List.all_eq_true.mp h) sub hmem)
      | inr hnew =>
        rw [List.mem_singleton] at hnew
        rw [hnew]
        exact chatHas_ensure_self cid s
  | unsubscribeOp cid pat =>
    show chatFK (unsubscribe cid pat s).2 = true
    simp only [unsubscribe]
    split
    · exact h
    · rw [chatFK, List.all_eq_true]
      intro sub hsub
      have hsub2 : sub ∈ s.subscriptions := List.mem_of_mem_filter hsub
      exact (List.all_eq_true.mp h) sub hsub2
  | ensureChat cid => exact chatFK_ensure cid s h
  | setRepostChannel cid rc =>
    show chatFK (set_repost_channel cid rc s) = true
    rw [set_repost_channel, chatFK, List.all_eq_true]
    intro sub hsub
    have hsub2 : sub ∈ s.subscriptions := by
      have := hsub
      rw [ensure_chat_exists_subscriptions] at this
      exact this
    have hc : chatHas sub.chat_id (ensure_chat_exists cid s) = true :=
      chatHas_ensure_mono sub.chat_id cid s ((List.all_eq_true.mp h) sub hsub2)
    exact chatHas_map_setrc sub.chat_id cid rc (ensure_chat_exists cid s).chats hc

theorem chatFK_runOps (ops : List Op) :
    ∀ s, chatFK s = true → chatFK (runOps ops s) = true := by
  induction ops with
  | nil => intro s h; exact h
  | cons op ops ih =>
    intro s h
    rw [runOps]
    exact ih _ (chatFK_apply op s h)

/-- C4: in every store reachable from the migrated empty store by the exposed
operations, every subscription's `chat_id` references an existing chat row;
and `subscribe` on a chat with no chat row creates the chat row and then
inserts (or, on a duplicate, keeps) the subscription row. -/
theorem subscription_fk_holds :
    (∀ ops : List Op, chatFK (runOps ops initialState) = true) ∧
    (∀ (s : DbState) (cid : Int) (args : SubscriptionArgs) (now : Timestamp),
      chatHas cid s = false →
      chatHas cid (subscribe cid args now s).2 = true ∧
      (subscribe cid args now s).2.subscriptions.any (subKeyIs args.subreddit cid) = true) := by
  constructor
  · intro ops
    exact chatFK_runOps ops initialState rfl
  · intro s cid args now _hno
    constructor
    · show chatHas cid (subscribe cid args now s).2 = true
      simp only [subscribe]
      split
      · exact chatHas_ensure_self cid s
      · exact chatHas_ensure_self cid s
    · simp only [subscribe]
      split
      · rename_i hdup
        exact hdup
      · show ((ensure_chat_exists cid s).subscriptions ++ [(⟨cid, args.subreddit, now, args.limit, args.time, args.filter⟩ : SubscriptionRow)]).any _ = true
        rw [List.any_append]
        simp [subKeyIs]

/-- Witness for `subscription_fk_holds`: a concrete subscribe-then-unsubscribe
run keeps the invariant, and subscribing chat 2 (absent from the empty store)
creates its chat row and subscription row. -/
theorem subscription_fk_holds_witness :
    chatFK (runOps [Op.subscribeOp 1 (⟨"test", none, none, none⟩ : SubscriptionArgs) 0,
      Op.unsubscribeOp 1 "te%"] initialState) = true ∧
    (chatHas 2 (subscribe 2 (⟨"abc", none, none, none⟩ : SubscriptionArgs) 0 initialState).2 = true ∧
      (subscribe 2 (⟨"abc", none, none, none⟩ : SubscriptionArgs) 0 initialState).2.subscriptions.any
        (subKeyIs "abc" 2) = true) :=
  ⟨subscription_fk_holds.1 [Op.subscribeOp 1 (⟨"test", none, none, none⟩ : SubscriptionArgs) 0,
      Op.unsubscribeOp 1 "te%"],
    subscription_fk_holds.2 initialState 2 (⟨"abc", none, none, none⟩ : SubscriptionArgs) 0 (by decide)⟩

theorem subscribe_of_dup (s : DbState) (cid : Int) (args : SubscriptionArgs)
    (now : Timestamp)
    (h : s.subscriptions.any (subKeyIs args.subreddit cid) = true) :
    subscribe cid args now s = (.error .constraintViolation, ensure_chat_exists cid s) := by
  have h2 : (ensure_chat_exists cid s).subscriptions.any (subKeyIs args.subreddit cid) = true := by
    rw [ensure_chat_exists_subscriptions]
    exact h
  simp only [subscribe, h2, if_true]

theorem subscribe_of_new (s : DbState) (cid : Int) (args : SubscriptionArgs)
    (now : Timestamp)
    (h : s.subscriptions.any (subKeyIs args.subreddit cid) = false) :
    subscribe cid args now s = (.ok (),
      { ensure_chat_exists cid s with subscriptions :=
          (ensure_chat_exists cid s).subscriptions
            ++ [⟨cid, args.subreddit, now, args.limit, args.time, args.filter⟩] }) := by
  have h2 : (ensure_chat_exists cid s).subscriptions.any (subKeyIs args.subreddit cid) = false := by
    rw [ensure_chat_exists_subscriptions]
    exact h
  simp only [subscribe, h2, Bool.false_eq_true, if_false]

/-- C8: `subscribe` fails with a Constraint-class error (a value distinct from
`notFound`) exactly when a subscription row for `(subreddit, chat_id)` already
exists, leaving the subscription table unchanged; with no such row the insert
succeeds. -/
theorem subscribe_duplicate_spec (s : DbState) (cid : Int)
    (args : SubscriptionArgs) (now : Timestamp) :
    ((∃ r ∈ s.subscriptions, subKeyIs args.subreddit cid r = true) →
      (subscribe cid args now s).1 = .error .constraintViolation ∧
      (subscribe cid args now s).1 ≠ .error .notFound ∧
      (subscribe cid args now s).2.subscriptions = s.subscriptions) ∧
    ((∀ r ∈ s.subscriptions, subKeyIs args.subreddit cid r = false) →
      (subscribe cid args now s).1 = .ok ()) := by
  constructor
  · rintro ⟨r, hr, hkey⟩
    have hany : s.subscriptions.any (subKeyIs args.subreddit cid) = true :=
      List.any_eq_true.mpr ⟨r, hr, hkey⟩
    rw [subscribe_of_dup s cid args now hany]
    exact ⟨rfl, by simp, ensure_chat_exists_subscriptions cid s⟩
  · intro hall
    have hany : s.subscriptions.any (subKeyIs args.subreddit cid) = false := by
      rw [← Bool.not_eq_true, List.any_eq_true]
      rintro ⟨r, hr, hkey⟩
      rw [hall r hr] at hkey
      exact Bool.false_ne_true hkey
    rw [subscribe_of_new s cid args now hany]

/-- Witness for `subscribe_duplicate_spec`: re-subscribing chat 1 to "test"
on `subWithPostState` hits the constraint, subscribing it to "abc"
succeeds. -/
theorem subscribe_duplicate_spec_witness :
    ((subscribe 1 (⟨"test", none, none, none⟩ : SubscriptionArgs) 9 subWithPostState).1
        = .error .constraintViolation ∧
      (subscribe 1 (⟨"test", none, none, none⟩ : SubscriptionArgs) 9 subWithPostState).1
        ≠ .error .notFound ∧
      (subscribe 1 (⟨"test", none, none, none⟩ : SubscriptionArgs) 9 subWithPostState).2.subscriptions
        = subWithPostState.subscriptions) ∧
    (subscribe 1 (⟨"abc", none, none, none⟩ : SubscriptionArgs) 9 subWithPostState).1 = .ok () :=
  ⟨(subscribe_duplicate_spec subWithPostState 1 ⟨"test", none, none, none⟩ 9).1
      ⟨⟨1, "test", 0, none, none, none⟩, List.mem_singleton_self _, by decide⟩,
    (subscribe_duplicate_spec subWithPostState 1 ⟨"abc", none, none, none⟩ 9).2 (by decide)⟩

theorem timePeriod_fromText_inv (text : String) (v : TopPostsTimePeriod)
    (h : TopPostsTimePeriod.fromText text = some v) :
    TopPostsTimePeriod.toText v = text := by
  rw [TopPostsTimePeriod.fromText] at h
  split_ifs at h <;> simp_all [TopPostsTimePeriod.toText] <;> rw [← h]

theorem postType_fromText_inv (text : String) (v : PostType)
    (h : PostType.fromText text = some v) : PostType.toText v = text := by
  rw [PostType.fromText] at h
  split_ifs at h <;> simp_all [PostType.toText] <;> rw [← h]

/-- C9: for both enumerated domain types the text codec round-trips
(decoding what the encoder wrote yields the same value), and decoding any
text the encoder cannot produce fails with the DataCorruption-class decode
error, never with a default value. -/
theorem codec_roundtrip_and_reject :
    (∀ v : TopPostsTimePeriod,
      TopPostsTimePeriod.columnResult (TopPostsTimePeriod.toText v) = .ok v) ∧
    (∀ text : String, (∀ v : TopPostsTimePeriod, TopPostsTimePeriod.toText v ≠ text) →
      TopPostsTimePeriod.columnResult text = .error .dataCorruption) ∧
    (∀ v : PostType, PostType.columnResult (PostType.toText v) = .ok v) ∧
    (∀ text : String, (∀ v : PostType, PostType.toText v ≠ text) →
      PostType.columnResult text = .error .dataCorruption) := by
  refine ⟨fun v => by cases v <;> rfl, ?_, fun v => by cases v <;> rfl, ?_⟩
  · intro text h
    rw [TopPostsTimePeriod.columnResult]
    cases hf : TopPostsTimePeriod.fromText text with
    | none => rfl
    | some v => exact absurd (timePeriod_fromText_inv text v hf) (h v)
  · intro text h
    rw [PostType.columnResult]
    cases hf : PostType.fromText text with
    | none => rfl
    | some v => exact absurd (postType_fromText_inv text v hf) (h v)

/-- Witness for `codec_roundtrip_and_reject`: "week" and "video" round-trip,
"banana" is rejected by both decoders. -/
theorem codec_roundtrip_and_reject_witness :
    TopPostsTimePeriod.columnResult (TopPostsTimePeriod.toText .week) = .ok .week ∧
    TopPostsTimePeriod.columnResult "banana" = .error .dataCorruption ∧
    PostType.columnResult (PostType.toText .video) = .ok .video ∧
    PostType.columnResult "banana" = .error .dataCorruption :=
  ⟨codec_roundtrip_and_reject.1 .week,
    codec_roundtrip_and_reject.2.1 "banana" (fun v => by cases v <;> decide),
    codec_roundtrip_and_reject.2.2.1 .video,
    codec_roundtrip_and_reject.2.2.2 "banana" (fun v => by cases v <;> decide)⟩

theorem unsubscribe_of_no_match (s : DbState) (cid : Int) (pat : String)
    (h : s.subscriptions.filter (unsubHits cid pat) = []) :
    unsubscribe cid pat s = (.error .notFound, s) := by
  rw [unsubscribe, h]
  rfl

theorem unsubscribe_of_match (s : DbState) (cid : Int) (pat : String)
    (row : SubscriptionRow)
    (h : (s.subscriptions.filter (unsubHits cid pat)).head? = some row) :
    unsubscribe cid pat s = (.ok row.subreddit,
      { s with
          subscriptions := s.subscriptions.filter (fun r => !(unsubHits cid pat r)),
          posts := s.posts.filter
            (fun p => !(p.chat_id == cid && p.subreddit == row.subreddit)) }) := by
  rw [unsubscribe, h]

/-- C10: when `unsubscribe` succeeds returning `ret`, its second statement
deletes exactly the `post` rows of `(chat_id, ret)` — matched by string
equality — so the seen rows of every other LIKE-matched subreddit of the chat
survive. -/
theorem unsubscribe_deletes_only_returned (s : DbState) (cid : Int)
    (pat : String) (ret : String)
    (hok : (unsubscribe cid pat s).1 = .ok ret) :
    (unsubscribe cid pat s).2.posts
        = s.posts.filter (fun q => !(q.chat_id == cid && q.subreddit == ret)) ∧
    ∀ q ∈ s.posts, q.chat_id = cid → sqliteLike pat q.subreddit = true →
      q.subreddit ≠ ret → q ∈ (unsubscribe cid pat s).2.posts := by
  cases hh : (s.subscriptions.filter (unsubHits cid pat)).head? with
  | none =>
    rw [unsubscribe_of_no_match s cid pat (List.head?_eq_none_iff.mp hh)] at hok
    exact absurd hok (by simp)
  | some row =>
    have hrw := unsubscribe_of_match s cid pat row hh
    rw [hrw] at hok
    have hret : row.subreddit = ret := by
      simpa using hok
    rw [hrw]
    subst hret
    refine ⟨rfl, ?_⟩
    intro q hq hcid _hlike hne
    apply List.mem_filter.mpr
    refine ⟨hq, ?_⟩
    simp [hcid, hne]

/-- Witness for `unsubscribe_deletes_only_returned`: unsubscribing chat 1
from pattern "a_" on `twoSubsPostsState` returns "ab"; the seen row of the
also-matched subreddit "ac" survives. -/
theorem unsubscribe_deletes_only_returned_witness :
    (unsubscribe 1 "a_" twoSubsPostsState).2.posts
        = twoSubsPostsState.posts.filter
            (fun q => !(q.chat_id == 1 && q.subreddit == "ab")) ∧
    (⟨"p2", 1, "ac", some 4, "u"⟩ : PostRow) ∈ (unsubscribe 1 "a_" twoSubsPostsState).2.posts :=
  ⟨(unsubscribe_deletes_only_returned twoSubsPostsState 1 "a_" "ab" (by rfl)).1,
    (unsubscribe_deletes_only_returned twoSubsPostsState 1 "a_" "ab" (by rfl)).2
      ⟨"p2", 1, "ac", some 4, "u"⟩ (by decide) (by decide) (by decide) (by decide)⟩

/-- C6 counterexample: on the reachable store `twoSubsState` (chat 1 holding
the subscriptions "ab" and "ac"), the single call `unsubscribe 1 "a_"` LIKE-
matches both rows and deletes BOTH in its one delete statement — not one row,
as the claim states — while returning the first row's subreddit "ab". -/
theorem unsubscribe_single_row_counterexample :
    twoSubsState.subscriptions.length = 2 ∧
    twoSubsState.subscriptions.all (unsubHits 1 "a_") = true ∧
    (unsubscribe 1 "a_" twoSubsState).1 = .ok "ab" ∧
    (unsubscribe 1 "a_" twoSubsState).2.subscriptions = [] :=
  ⟨rfl, rfl, rfl, rfl⟩

/-- C6 (amended): `unsubscribe` deletes EVERY subscription row of the chat
whose subreddit LIKE-matches the pattern (several at once when the pattern's
wildcards or case-insensitive matching hit more than one), returns the first
matched row's exact stored subreddit, and with no matching row fails with the
NotFound-class error leaving the store unchanged. -/
theorem unsubscribe_matches_spec (s : DbState) (cid : Int) (pat : String) :
    (s.subscriptions.filter (unsubHits cid pat) = [] →
      unsubscribe cid pat s = (.error .notFound, s)) ∧
    (∀ row, (s.subscriptions.filter (unsubHits cid pat)).head? = some row →
      (unsubscribe cid pat s).1 = .ok row.subreddit ∧
      (unsubscribe cid pat s).2.subscriptions
        = s.subscriptions.filter (fun r => !(unsubHits cid pat r))) := by
  constructor
  · exact unsubscribe_of_no_match s cid pat
  · intro row hh
    rw [unsubscribe_of_match s cid pat row hh]
    exact ⟨rfl, rfl⟩

/-- Witness for `unsubscribe_matches_spec`: on `twoSubsState`, pattern "zz"
matches nothing (NotFound, store unchanged) and pattern "a_" deletes every
matching row, returning "ab". -/
theorem unsubscribe_matches_spec_witness :
    unsubscribe 1 "zz" twoSubsState = (.error .notFound, twoSubsState) ∧
    ((unsubscribe 1 "a_" twoSubsState).1 = .ok "ab" ∧
      (unsubscribe 1 "a_" twoSubsState).2.subscriptions
        = twoSubsState.subscriptions.filter (fun r => !(unsubHits 1 "a_" r))) :=
  ⟨(unsubscribe_matches_spec twoSubsState 1 "zz").1 (by rfl),
    (unsubscribe_matches_spec twoSubsState 1 "a_").2 ⟨1, "ab", 0, none, none, none⟩ (by rfl)⟩

/-- C7 counterexample: `unsubscribe`'s two delete statements are not one
transaction.  On `subWithPostState`, with the first statement succeeding and
the second failing with a storage error (`unsubscribeFaulty false true`), the
call returns an error, yet the subscription row is already deleted and the
seen-item row is still there: the subscription deletion committed without the
seen-item deletion, and the store is not left unchanged. -/
theorem unsubscribe_not_transactional_counterexample :
    (unsubscribeFaulty false true 1 "test" subWithPostState).1 = .error DbError.storageIO ∧
    (unsubscribeFaulty false true 1 "test" subWithPostState).2.subscriptions = [] ∧
    (unsubscribeFaulty false true 1 "test" subWithPostState).2.posts = subWithPostState.posts ∧
    subWithPostState.subscriptions ≠ [] :=
  ⟨rfl, rfl, rfl, by decide⟩

theorem unsubscribeFaulty_no_fault (cid : Int) (pat : String) (s : DbState) :
    unsubscribeFaulty false false cid pat s = unsubscribe cid pat s := by
  simp only [unsubscribeFaulty, unsubscribe, Bool.false_eq_true, if_false]

/-- C7 (amended): the two deletions of `unsubscribe` are separate
auto-committed statements.  A failure in the first statement (or no matching
row) leaves the store unchanged; but when the second statement fails after
the first succeeded, the subscription deletion stays committed while every
seen-item row survives; with no fault the call behaves as `unsubscribe`. -/
theorem unsubscribe_two_statements_spec (f2 : Bool) (cid : Int) (pat : String)
    (s : DbState) :
    (unsubscribeFaulty true f2 cid pat s = (.error DbError.storageIO, s)) ∧
    (s.subscriptions.filter (unsubHits cid pat) = [] →
      unsubscribeFaulty false f2 cid pat s = (.error .notFound, s)) ∧
    (∀ row, (s.subscriptions.filter (unsubHits cid pat)).head? = some row →
      unsubscribeFaulty false true cid pat s
        = (.error DbError.storageIO,
            { s with subscriptions :=
                s.subscriptions.filter (fun r => !(unsubHits cid pat r)) })) ∧
    unsubscribeFaulty false false cid pat s = unsubscribe cid pat s := by
  refine ⟨rfl, ?_, ?_, unsubscribeFaulty_no_fault cid pat s⟩
  · intro h
    simp only [unsubscribeFaulty, Bool.false_eq_true, if_false]
    rw [h]
    rfl
  · intro row hh
    simp only [unsubscribeFaulty, Bool.false_eq_true, if_false]
    rw [hh]
    simp

/-- Witness for `unsubscribe_two_statements_spec` on `subWithPostState`:
first-statement fault (store unchanged), no-match (store unchanged),
second-statement fault (subscription gone, posts kept), and the no-fault run
agreeing with `unsubscribe`. -/
theorem unsubscribe_two_statements_spec_witness :
    unsubscribeFaulty true false 1 "test" subWithPostState
      = (.error DbError.storageIO, subWithPostState) ∧
    unsubscribeFaulty false false 1 "zz" subWithPostState
      = (.error .notFound, subWithPostState) ∧
    unsubscribeFaulty false true 1 "test" subWithPostState
      = (.error DbError.storageIO, { subWithPostState with subscriptions := [] }) ∧
    unsubscribeFaulty false false 1 "test" subWithPostState
      = unsubscribe 1 "test" subWithPostState :=
  ⟨(unsubscribe_two_statements_spec false 1 "test" subWithPostState).1,
    (unsubscribe_two_statements_spec false 1 "zz" subWithPostState).2.1 (by rfl),
    (unsubscribe_two_statements_spec false 1 "test" subWithPostState).2.2.1
      ⟨1, "test", 0, none, none, none⟩ (by rfl),
    (unsubscribe_two_statements_spec false 1 "test" subWithPostState).2.2.2⟩

theorem likeFuel_self (cs : List Char) :
    ∀ n, 2 * cs.length < n → likeFuel n cs cs = true := by
  induction cs with
  | nil =>
    intro n hn
    cases n with
    | zero => omega
    | succ n => rfl
  | cons c cs ih =>
    intro n hn
    have hlen : (c :: cs).length = cs.length + 1 := List.length_cons c cs
    rw [hlen] at hn
    cases n with
    | zero => omega
    | succ n =>
      rw [likeFuel]
      by_cases hc : c = '%'
      · rw [if_pos hc, Bool.or_eq_true]
        right
        have hn2 : 2 * cs.length + 1 < n := by omega
        cases cs with
        | nil =>
          cases n with
          | zero => omega
          | succ m =>
            rw [likeFuel, if_pos hc]
            cases m with
            | zero => omega
            | succ k => rfl
        | cons d ds =>
          cases n with
          | zero => omega
          | succ m =>
            rw [likeFuel, if_pos hc, Bool.or_eq_true]
            left
            apply ih
            rw [List.length_cons] at hn2 ⊢
            omega
      · rw [if_neg hc, Bool.and_eq_true]
        constructor
        · split
          · rfl
          · simp
        · apply ih
          omega

/-- Any string LIKE-matches itself: `%` can stand for itself, `_` matches any
one character, and ordinary characters match themselves. -/
theorem sqliteLike_self (s : String) : sqliteLike s s = true := by
  rw [sqliteLike]
  apply likeFuel_self
  show 2 * s.data.length < s.length + s.length + 1
  rw [String.length]
  omega

theorem record_post_subscriptions (cid : Int) (post : Post)
    (sa : Option Timestamp) (s : DbState) :
    (record_post cid post sa s).subscriptions = s.subscriptions := rfl

theorem record_post_seen_subscriptions (cid : Int) (post : Post)
    (now : Timestamp) (s : DbState) :
    (record_post_seen_with_current_time cid post now s).subscriptions
      = s.subscriptions := rfl

theorem subscribe_ok_subscriptions (s : DbState) (cid : Int)
    (args : SubscriptionArgs) (now : Timestamp)
    (h : (subscribe cid args now s).1 = .ok ()) :
    (subscribe cid args now s).2.subscriptions
      = s.subscriptions ++ [⟨cid, args.subreddit, now, args.limit, args.time, args.filter⟩] := by
  cases hany : s.subscriptions.any (subKeyIs args.subreddit cid) with
  | true =>
    rw [subscribe_of_dup s cid args now hany] at h
    exact absurd h (by simp)
  | false =>
    rw [subscribe_of_new s cid args now hany]
    show (ensure_chat_exists cid s).subscriptions ++ _ = _
    rw [ensure_chat_exists_subscriptions]

/-- C5 (amended): after subscribe + record-seen + a successful unsubscribe for
the same `(chat, subreddit)`, `is_post_seen` is false and no seen-item row for
the pair remains — PROVIDED the chat starts with no other subscription whose
subreddit LIKE-matches the given one (otherwise the unsubscribe can return a
different matched subreddit, see the counterexample) and no seen-item row for
`(post.id, chat)` predates the scenario. -/
theorem subscribe_record_unsubscribe_cascade (s : DbState) (cid : Int)
    (args : SubscriptionArgs) (post : Post) (t0 tseen : Timestamp)
    (hpost : post.subreddit = args.subreddit)
    (hnosub : ∀ r ∈ s.subscriptions, unsubHits cid args.subreddit r = false)
    (hnopost : ∀ q ∈ s.posts, postKeyIs post.id cid q = false)
    (hsub : (subscribe cid args t0 s).1 = .ok ()) :
    (unsubscribe cid args.subreddit
        (record_post_seen_with_current_time cid post tseen (subscribe cid args t0 s).2)).1
      = .ok args.subreddit ∧
    is_post_seen cid post (unsubscribe cid args.subreddit
        (record_post_seen_with_current_time cid post tseen (subscribe cid args t0 s).2)).2
      = false ∧
    ∀ q ∈ (unsubscribe cid args.subreddit
        (record_post_seen_with_current_time cid post tseen (subscribe cid args t0 s).2)).2.posts,
      ¬(q.chat_id = cid ∧ q.subreddit = args.subreddit) := by
  have hsubs1 : (subscribe cid args t0 s).2.subscriptions
      = s.subscriptions ++ [⟨cid, args.subreddit, t0, args.limit, args.time, args.filter⟩] :=
    subscribe_ok_subscriptions s cid args t0 hsub
  have hposts2 : (record_post_seen_with_current_time cid post tseen (subscribe cid args t0 s).2).posts
      = s.posts ++ [⟨post.id, cid, post.subreddit, some tseen, post.title⟩] := by
    show (record_post cid post (some tseen) (subscribe cid args t0 s).2).posts = _
    rw [record_post_posts_absent (subscribe cid args t0 s).2 cid post (some tseen)
      (by rw [subscribe_posts]; exact hnopost)]
    rw [subscribe_posts]
  have hfilter : (record_post_seen_with_current_time cid post tseen
        (subscribe cid args t0 s).2).subscriptions.filter (unsubHits cid args.subreddit)
      = [⟨cid, args.subreddit, t0, args.limit, args.time, args.filter⟩] := by
    rw [record_post_seen_subscriptions, hsubs1, List.filter_append]
    have h1 : s.subscriptions.filter (unsubHits cid args.subreddit) = [] :=
      List.filter_eq_nil_iff.mpr fun r hr => by
        rw [hnosub r hr]
        exact Bool.false_ne_true
    have h2 : unsubHits cid args.subreddit
        (⟨cid, args.subreddit, t0, args.limit, args.time, args.filter⟩ : SubscriptionRow) = true := by
      rw [unsubHits]
      simp [sqliteLike_self]
    rw [h1]
    simp [List.filter_cons, h2]
  have hh : ((record_post_seen_with_current_time cid post tseen
        (subscribe cid args t0 s).2).subscriptions.filter (unsubHits cid args.subreddit)).head?
      = some ⟨cid, args.subreddit, t0, args.limit, args.time, args.filter⟩ := by
    rw [hfilter]
    rfl
  have hrw := unsubscribe_of_match _ cid args.subreddit _ hh
  rw [hrw]
  refine ⟨rfl, ?_, ?_⟩
  · show ((record_post_seen_with_current_time cid post tseen
        (subscribe cid args t0 s).2).posts.filter _).any _ = false
    rw [← Bool.not_eq_true, List.any_eq_true]
    rintro ⟨q, hq, hcond⟩
    have hq2 := List.mem_of_mem_filter hq
    rw [hposts2, List.mem_append] at hq2
    cases hq2 with
    | inl hmem =>
      rw [hnopost q hmem] at hcond
      simp at hcond
    | inr hsingle =>
      rw [List.mem_singleton] at hsingle
      have hdel := (List.mem_filter.mp hq).2
      subst hsingle
      simp [hpost] at hdel
  · intro q hq
    have hdel := (List.mem_filter.mp hq).2
    rintro ⟨hc, hs⟩
    simp [hc, hs] at hdel

/-- C5 counterexample: chat 1 first subscribes to "TEST", then to "test"; a
post of subreddit "test" is recorded as seen; `unsubscribe 1 "test"` succeeds
— but LIKE matching is case-insensitive, so the first matched row is "TEST",
that is what the call returns, the seen-item deletion runs for "TEST" only,
and `is_post_seen` for the post is still true with its row still stored. -/
theorem cascade_delete_counterexample :
    (subscribe 1 (⟨"TEST", none, none, none⟩ : SubscriptionArgs) 0 initialState).1 = .ok () ∧
    (subscribe 1 (⟨"test", none, none, none⟩ : SubscriptionArgs) 0
        (subscribe 1 (⟨"TEST", none, none, none⟩ : SubscriptionArgs) 0 initialState).2).1
      = .ok () ∧
    testPost.subreddit = "test" ∧
    (unsubscribe 1 "test"
        (record_post_seen_with_current_time 1 testPost 5 mixedCaseState)).1 = .ok "TEST" ∧
    is_post_seen 1 testPost
        (unsubscribe 1 "test"
          (record_post_seen_with_current_time 1 testPost 5 mixedCaseState)).2 = true :=
  ⟨rfl, rfl, rfl, rfl, rfl⟩

/-- Witness for `subscribe_record_unsubscribe_cascade`: the scenario from the
empty store with subreddit "test" and `testPost`. -/
theorem subscribe_record_unsubscribe_cascade_witness :
    (unsubscribe 1 "test"
        (record_post_seen_with_current_time 1 testPost 5
          (subscribe 1 (⟨"test", none, none, none⟩ : SubscriptionArgs) 0 initialState).2)).1
      = .ok "test" ∧
    is_post_seen 1 testPost
        (unsubscribe 1 "test"
          (record_post_seen_with_current_time 1 testPost 5
            (subscribe 1 (⟨"test", none, none, none⟩ : SubscriptionArgs) 0 initialState).2)).2
      = false ∧
    ∀ q ∈ (unsubscribe 1 "test"
        (record_post_seen_with_current_time 1 testPost 5
          (subscribe 1 (⟨"test", none, none, none⟩ : SubscriptionArgs) 0 initialState).2)).2.posts,
      ¬(q.chat_id = 1 ∧ q.subreddit = "test") :=
  subscribe_record_unsubscribe_cascade initialState 1 ⟨"test", none, none, none⟩
    testPost 0 5 rfl (by decide) (by decide) (by rfl)

end TgredditDb
